import Mathlib

/-!
Verification of the resumable pipeline execution engine of the
api-automation-agent repository: the persistent checkpoint store, the stage
memoizer and item-level progress tracker (`src/utils/checkpoint.py`), the
retry-with-repair command loop (`src/services/command_service.py`), and the
interrupt handling of the orchestrator (`src/framework_generator.py`).

The Python code is shallowly embedded: the shelve database is an association
list from string keys to stored mappings, Python mapping values are the
inductive type `PyVal`, and the stateful operations are pure functions that
take and return the store state explicitly.
-/

/-- A serializable Python value, as stored inside checkpoint payloads.
Mappings are association lists of string keys (Python dict preserves
insertion order, and all keys written by the code under scrutiny are
strings). -/
inductive PyVal where
  | vnone
  | vbool (b : Bool)
  | vint (n : Int)
  | vstr (s : String)
  | vlist (xs : List PyVal)
  | vdict (es : List (String × PyVal))

/-- Structural equality of Python values (Python `==` on the value universe
used by the checkpoint code). -/
def PyVal.beq : PyVal → PyVal → Bool
  | .vnone, .vnone => true
  | .vbool a, .vbool b => a == b
  | .vint a, .vint b => a == b
  | .vstr a, .vstr b => a == b
  | .vlist xs, .vlist ys => beqL xs ys
  | .vdict es, .vdict fs => beqD es fs
  | _, _ => false
where
  beqL : List PyVal → List PyVal → Bool
    | [], [] => true
    | a :: as, b :: bs => PyVal.beq a b && beqL as bs
    | _, _ => false
  beqD : List (String × PyVal) → List (String × PyVal) → Bool
    | [], [] => true
    | (k, a) :: as, (l, b) :: bs => k == l && PyVal.beq a b && beqD as bs
    | _, _ => false

theorem PyVal.beq_refl : (v : PyVal) → PyVal.beq v v = true
  | .vnone => rfl
  | .vbool b => by simp [PyVal.beq]
  | .vint n => by simp [PyVal.beq]
  | .vstr s => by simp [PyVal.beq]
  | .vlist xs => by simp [PyVal.beq]; exact beqL_refl xs
  | .vdict es => by simp [PyVal.beq]; exact beqD_refl es
where
  beqL_refl : (xs : List PyVal) → PyVal.beq.beqL xs xs = true
    | [] => rfl
    | a :: as => by simp [PyVal.beq.beqL]; exact ⟨PyVal.beq_refl a, beqL_refl as⟩
  beqD_refl : (es : List (String × PyVal)) → PyVal.beq.beqD es es = true
    | [] => rfl
    | (k, a) :: as => by
        simp [PyVal.beq.beqD]; exact ⟨PyVal.beq_refl a, beqD_refl as⟩

theorem PyVal.beq_sound : (v w : PyVal) → PyVal.beq v w = true → v = w
  | .vnone, .vnone, _ => rfl
  | .vbool a, .vbool b, h => by simp [PyVal.beq] at h; simp [h]
  | .vint a, .vint b, h => by simp [PyVal.beq] at h; simp [h]
  | .vstr a, .vstr b, h => by simp [PyVal.beq] at h; simp [h]
  | .vlist xs, .vlist ys, h => by
      simp only [PyVal.beq] at h
      exact congrArg PyVal.vlist (beqL_sound xs ys h)
  | .vdict es, .vdict fs, h => by
      simp only [PyVal.beq] at h
      exact congrArg PyVal.vdict (beqD_sound es fs h)
  | .vnone, .vbool _, h => by simp [PyVal.beq] at h
  | .vnone, .vint _, h => by simp [PyVal.beq] at h
  | .vnone, .vstr _, h => by simp [PyVal.beq] at h
  | .vnone, .vlist _, h => by simp [PyVal.beq] at h
  | .vnone, .vdict _, h => by simp [PyVal.beq] at h
  | .vbool _, .vnone, h => by simp [PyVal.beq] at h
  | .vbool _, .vint _, h => by simp [PyVal.beq] at h
  | .vbool _, .vstr _, h => by simp [PyVal.beq] at h
  | .vbool _, .vlist _, h => by simp [PyVal.beq] at h
  | .vbool _, .vdict _, h => by simp [PyVal.beq] at h
  | .vint _, .vnone, h => by simp [PyVal.beq] at h
  | .vint _, .vbool _, h => by simp [PyVal.beq] at h
  | .vint _, .vstr _, h => by simp [PyVal.beq] at h
  | .vint _, .vlist _, h => by simp [PyVal.beq] at h
  | .vint _, .vdict _, h => by simp [PyVal.beq] at h
  | .vstr _, .vnone, h => by simp [PyVal.beq] at h
  | .vstr _, .vbool _, h => by simp [PyVal.beq] at h
  | .vstr _, .vint _, h => by simp [PyVal.beq] at h
  | .vstr _, .vlist _, h => by simp [PyVal.beq] at h
  | .vstr _, .vdict _, h => by simp [PyVal.beq] at h
  | .vlist _, .vnone, h => by simp [PyVal.beq] at h
  | .vlist _, .vbool _, h => by simp [PyVal.beq] at h
  | .vlist _, .vint _, h => by simp [PyVal.beq] at h
  | .vlist _, .vstr _, h => by simp [PyVal.beq] at h
  | .vlist _, .vdict _, h => by simp [PyVal.beq] at h
  | .vdict _, .vnone, h => by simp [PyVal.beq] at h
  | .vdict _, .vbool _, h => by simp [PyVal.beq] at h
  | .vdict _, .vint _, h => by simp [PyVal.beq] at h
  | .vdict _, .vstr _, h => by simp [PyVal.beq] at h
  | .vdict _, .vlist _, h => by simp [PyVal.beq] at h
where
  beqL_sound : (xs ys : List PyVal) → PyVal.beq.beqL xs ys = true → xs = ys
    | [], [], _ => rfl
    | [], _ :: _, h => by simp [PyVal.beq.beqL] at h
    | _ :: _, [], h => by simp [PyVal.beq.beqL] at h
    | a :: as, b :: bs, h => by
        simp only [PyVal.beq.beqL, Bool.and_eq_true] at h
        rw [PyVal.beq_sound a b h.1, beqL_sound as bs h.2]
  beqD_sound : (es fs : List (String × PyVal)) → PyVal.beq.beqD es fs = true → es = fs
    | [], [], _ => rfl
    | [], _ :: _, h => by simp [PyVal.beq.beqD] at h
    | _ :: _, [], h => by simp [PyVal.beq.beqD] at h
    | (k, a) :: as, (l, b) :: bs, h => by
        simp only [PyVal.beq.beqD, Bool.and_eq_true, beq_iff_eq] at h
        rw [h.1.1, PyVal.beq_sound a b h.1.2, beqD_sound as bs h.2]

theorem PyVal.beq_iff (v w : PyVal) : PyVal.beq v w = true ↔ v = w :=
  ⟨PyVal.beq_sound v w, fun h => h ▸ PyVal.beq_refl v⟩

instance : DecidableEq PyVal := fun v w =>
  decidable_of_iff (PyVal.beq v w = true) (PyVal.beq_iff v w)

/-- A Python mapping with string keys: the payload type of every checkpoint
record written by the code. -/
abbrev PyDict := List (String × PyVal)

/-- Python `d[key]` / `d.get(key)` lookup on a string-keyed mapping. -/
def dlookup {α : Type} : List (String × α) → String → Option α
  | [], _ => none
  | (k, v) :: rest, key => if k = key then some v else dlookup rest key

/-- Python `d[key] = v`: replace the entry in place if the key is present,
append it otherwise (dict insertion-order semantics). -/
def dset {α : Type} : List (String × α) → String → α → List (String × α)
  | [], key, v => [(key, v)]
  | (k, w) :: rest, key, v =>
      if k = key then (key, v) :: rest else (k, w) :: dset rest key v

theorem dlookup_dset_self {α : Type} (l : List (String × α)) (k : String) (v : α) :
    dlookup (dset l k v) k = some v := by
  induction l with
  | nil => simp [dset, dlookup]
  | cons p rest ih =>
    obtain ⟨k', w⟩ := p
    by_cases h : k' = k
    · simp [dset, h, dlookup]
    · simp [dset, h, dlookup, ih]

theorem dlookup_dset_ne {α : Type} (l : List (String × α)) (k k' : String) (v : α)
    (h : k' ≠ k) : dlookup (dset l k v) k' = dlookup l k' := by
  have hne : ¬k = k' := fun hc => h hc.symm
  induction l with
  | nil =>
    simp only [dset, dlookup]
    rw [if_neg hne]
  | cons p rest ih =>
    obtain ⟨k0, w⟩ := p
    by_cases h0 : k0 = k
    · subst h0
      simp only [dset, if_pos rfl, dlookup]
      rw [if_neg hne, if_neg hne]
    · simp only [dset, if_neg h0, dlookup]
      by_cases h1 : k0 = k'
      · rw [if_pos h1, if_pos h1]
      · rw [if_neg h1, if_neg h1, ih]

theorem dset_dset_self {α : Type} (l : List (String × α)) (k : String) (v w : α) :
    dset (dset l k v) k w = dset l k w := by
  induction l with
  | nil => simp [dset]
  | cons p rest ih =>
    obtain ⟨k0, u⟩ := p
    by_cases h0 : k0 = k
    · simp [dset, h0]
    · simp [dset, h0, ih]

/-- The persistent shelve database backing `Checkpoint` (file `checkpoints`):
whether the database file exists on disk, and its key/value entries. -/
structure DBState where
  exist : Bool
  entries : List (String × PyDict)
deriving DecidableEq

/-- The state of the world before any checkpoint has ever been written:
no shelve file exists. -/
def emptyDB : DBState := ⟨false, []⟩

namespace Checkpoint

/-- `Checkpoint._get_checkpoint_key` (checkpoint.py line 32):
the store key is the namespace and the tag joined by an underscore. -/
def get_checkpoint_key (nspace tag : String) : String :=
  nspace ++ "_" ++ tag

/-- `Checkpoint.save` (checkpoint.py lines 70-85) with `skip_object = True`,
the value used at every call site reached by the claims.  `state` is the
explicit `state` argument (`none` when not passed), `locs` is the caller
frame's local-variable mapping that line 74 falls back to when `state` is
falsy (`state = state or ...`).  The chosen payload is written under the
checkpoint key; opening the shelve creates the database file. -/
def save (db : DBState) (nspace tag : String) (state : Option PyDict) (locs : PyDict) :
    DBState :=
  let chosen :=
    match state with
    | some s => if s.isEmpty then locs else s
    | none => locs
  ⟨true, dset db.entries (get_checkpoint_key nspace tag) chosen⟩

/-- `Checkpoint.restore` (checkpoint.py lines 87-109) with
`restore_object = False`, the value used at every call site reached by the
claims.  Returns `none` when no shelve database exists, when the key is
absent, or when the stored payload is falsy (`if not saved_data`); otherwise
returns the stored mapping with its `"self"` entry filtered out (lines
106-108). -/
def restore (db : DBState) (nspace tag : String) : Option PyDict :=
  if db.exist = false then none
  else
    match dlookup db.entries (get_checkpoint_key nspace tag) with
    | none => none
    | some saved_data =>
        if saved_data.isEmpty then none
        else some (saved_data.filter (fun p => p.1 != "self"))

end Checkpoint

/-- The orchestrator object (`FrameworkGenerator`, framework_generator.py):
its in-memory counters and the destination folder, which is also the
namespace of its `Checkpoint` instance (lines 35-37). -/
structure FrameworkGenerator where
  destination_folder : String
  models_count : Int
  test_files_count : Int
deriving DecidableEq

/-- `FrameworkGenerator.save_state` (framework_generator.py lines 53-62):
persist the in-memory counters through the checkpoint store under the
orchestrator's own tag `"framework_generator"`.  The explicit state mapping
is non-empty, so the caller-locals fallback of `Checkpoint.save` is never
taken (the last argument is irrelevant and passed as `[]`). -/
def FrameworkGenerator.save_state (g : FrameworkGenerator) (db : DBState) : DBState :=
  Checkpoint.save db g.destination_folder "framework_generator"
    (some [("destination_folder", .vstr g.destination_folder),
           ("self", .vdict [("models_count", .vint g.models_count),
                            ("test_files_count", .vint g.test_files_count)])])
    []

/-- Whether `FrameworkGenerator.save_state` runs to completion or raises when
invoked from the interrupt handler. -/
inductive SaveStateOutcome where
  | ok
  | raises
deriving DecidableEq

/-- `FrameworkGenerator._handle_interrupt` (framework_generator.py lines
42-47): log a warning, `try: self.save_state()` and in a `finally:` block
call `sys.exit(1)`.  The result records whether the warning was logged, the
resulting store state, and the process exit status.  Because the exit sits
in a `finally`, it happens on both outcomes of `save_state`; when
`save_state` raises, the store is left as it was. -/
def FrameworkGenerator.handle_interrupt (g : FrameworkGenerator) (db : DBState)
    (o : SaveStateOutcome) : Bool × DBState × Nat :=
  match o with
  | .ok => (true, g.save_state db, 1)
  | .raises => (true, db, 1)

/-- The tags of the stages of `FrameworkGenerator` wrapped by
`@Checkpoint.checkpoint()` (the decorator is called with `tag=None`, so each
stage's tag is the function name). -/
def stage_tags : List String :=
  ["process_api_definition", "setup_framework", "create_env_file",
   "generate", "run_final_checks"]

deriving instance DecidableEq for Except

/-- The result of invoking a stage wrapped by the `Checkpoint.checkpoint`
decorator: the outcome (normal return value or propagated exception), the
store afterwards, and whether the underlying callable was invoked. -/
structure MemoResult where
  outcome : Except String PyVal
  db : DBState
  invoked : Bool
deriving DecidableEq

namespace Checkpoint

/-- The wrapper installed by `Checkpoint.checkpoint` (checkpoint.py lines
159-186) around a stage method of the orchestrator `g`.  `tag` is the
resolved checkpoint tag (`tag or func.__name__`), and `func` is the behavior
of the underlying callable if it were invoked: a returned value or a raised
exception (identified by a label).  Line 169 tests
`if last_state and "result" in last_state`, which holds exactly when
`restore` produced a mapping containing a `"result"` key (an empty mapping
is falsy and has no keys); in that case the persisted result is returned and
the callable is not invoked.  On a normal return the result is persisted
under the stage key wrapped as a non-empty mapping; on an exception the
orchestrator's `save_state` hook runs and the same exception propagates. -/
def checkpoint_wrapper (g : FrameworkGenerator) (db : DBState) (tag : String)
    (func : Except String PyVal) : MemoResult :=
  let last_state := restore db g.destination_folder tag
  match (match last_state with
         | some d => dlookup d "result"
         | none => none) with
  | some v => { outcome := .ok v, db := db, invoked := false }
  | none =>
      match func with
      | .ok result =>
          { outcome := .ok result,
            db := save db g.destination_folder tag (some [("result", result)]) [],
            invoked := true }
      | .error e =>
          { outcome := .error e, db := g.save_state db, invoked := true }

end Checkpoint

/-- Result of `CommandService.run_command_with_fix`: the returned success
flag and message, plus how many times the command function and the fix
function were invoked. -/
structure FixRunResult where
  success : Bool
  message : String
  cmd_calls : Nat
  fix_calls : Nat
deriving DecidableEq

namespace CommandService

/-- The `while retry_count < max_retries` loop of
`CommandService.run_command_with_fix` (command_service.py lines 117-133)
followed by the final unrepaired attempt (lines 135-141).  `command_func n`
is the outcome of the `(n+1)`-th invocation of the command function (the
command may behave differently across invocations because the fix function
mutates the files).  `rem` is `max_retries - retry_count`; when it reaches
zero the loop exits and one more attempt is made, whose outcome is returned
as final. -/
def run_with_fix_loop (command_func : Nat → Bool × String) (has_fix : Bool) :
    Nat → Nat → Nat → FixRunResult
  | 0, cmd_calls, fix_calls =>
      let r := command_func cmd_calls
      { success := r.1, message := r.2, cmd_calls := cmd_calls + 1,
        fix_calls := fix_calls }
  | rem + 1, cmd_calls, fix_calls =>
      let r := command_func cmd_calls
      if r.1 then
        { success := true, message := r.2, cmd_calls := cmd_calls + 1,
          fix_calls := fix_calls }
      else
        run_with_fix_loop command_func has_fix rem (cmd_calls + 1)
          (if has_fix then fix_calls + 1 else fix_calls)

/-- `CommandService.run_command_with_fix` (command_service.py lines 97-141):
run the loop starting from `retry_count = 0` with no invocations yet.
`has_fix` tells whether a fix function was provided (`if fix_func:`). -/
def run_command_with_fix (command_func : Nat → Bool × String) (has_fix : Bool)
    (max_retries : Nat) : FixRunResult :=
  run_with_fix_loop command_func has_fix max_retries 0 0

end CommandService

/-- Python membership `x in xs` on a list of Python values. -/
def pelem (x : PyVal) (xs : List PyVal) : Bool :=
  xs.any (fun y => PyVal.beq y x)

/-- Python `d1.update(d2)` on string-keyed mappings: existing keys keep
their position and receive the new value, new keys are appended in the
order of `d2`. -/
def pyUpdate (d1 d2 : PyDict) : PyDict :=
  d1.map (fun p => (p.1, (dlookup d2 p.1).getD p.2)) ++
    d2.filter (fun p => (dlookup d1 p.1).isNone)

/-- Python `d.get(key, [])` specialised to the stored `"processed"` list
(checkpoint.py line 127): the stored value is always a list there. -/
def pyGetList (d : PyDict) (k : String) : List PyVal :=
  match dlookup d k with
  | some (.vlist xs) => xs
  | _ => []

/-- Python `d.get(key, ...)` specialised to the stored `"extra_state"`
mapping (checkpoint.py line 128): the stored value is always a mapping
there. -/
def pyGetDict (d : PyDict) (k : String) : PyDict :=
  match dlookup d k with
  | some (.vdict es) => es
  | _ => []

namespace Checkpoint

/-- The default state of `checkpoint_iter` when nothing was restored
(checkpoint.py line 125). -/
def default_iter_state : PyDict :=
  [("processed", .vlist []), ("extra_state", .vdict [])]

/-- What `Checkpoint.checkpoint_iter` computes before yielding anything
(checkpoint.py lines 125-134): restore the record (`or` the default when the
restore is `None` or falsy), read back the processed list and the saved
auxiliary state, merge the saved auxiliary state into the caller-supplied
accumulator in place (`extra_state.update(saved_extra_state)`), and compute
the list of remaining items (`item not in processed`), which is exactly the
sequence the generator will yield, in order. -/
structure IterStart where
  processed : List PyVal
  remaining : List PyVal
  acc : PyDict
deriving DecidableEq

def checkpoint_iter_start (db : DBState) (nspace tag : String)
    (iterable : List PyVal) (extra_state : PyDict) : IterStart :=
  let state :=
    match restore db nspace tag with
    | some d => if d.isEmpty then default_iter_state else d
    | none => default_iter_state
  let processed := pyGetList state "processed"
  let saved_extra_state := pyGetDict state "extra_state"
  { processed := processed,
    remaining := iterable.filter (fun item => !(pelem item processed)),
    acc := pyUpdate extra_state saved_extra_state }

/-- The yield loop of `Checkpoint.checkpoint_iter` (checkpoint.py lines
136-144) driven by a caller whose loop body updates the accumulator:
after each yielded item the caller's body runs (`body`), the item is
appended to the processed list, and the new state is persisted.  `fuel` is
the number of loop bodies that complete before the process dies (a crash
between items); the result is the store, the accumulator, and the processed
list at that point.  Line 143 saves `extra_state or {}`, which equals the
accumulator itself since an empty accumulator and `{}` are the same
mapping. -/
def checkpoint_iter_loop (nspace tag : String) (body : PyDict → PyVal → PyDict) :
    DBState → List PyVal → PyDict → List PyVal → Nat → DBState × PyDict × List PyVal
  | db, processed, acc, _, 0 => (db, acc, processed)
  | db, processed, acc, [], _ + 1 => (db, acc, processed)
  | db, processed, acc, item :: rest, fuel + 1 =>
      let acc1 := body acc item
      let processed1 := processed ++ [item]
      let db1 := save db nspace tag
        (some [("processed", .vlist processed1), ("extra_state", .vdict acc1)]) []
      checkpoint_iter_loop nspace tag body db1 processed1 acc1 rest fuel

/-- One (possibly interrupted) run of a caller's `for`-loop wrapped by
`Checkpoint.checkpoint_iter`: the start phase followed by `fuel` completed
loop bodies. -/
def checkpoint_iter_run (db : DBState) (nspace tag : String) (iterable : List PyVal)
    (extra_state : PyDict) (body : PyDict → PyVal → PyDict) (fuel : Nat) :
    DBState × PyDict × List PyVal :=
  let s := checkpoint_iter_start db nspace tag iterable extra_state
  checkpoint_iter_loop nspace tag body db s.processed s.acc s.remaining fuel

end Checkpoint

/-- An arbitrary Python object as seen by `Checkpoint.__init__`: its
truthiness (what `if self.obj` tests) and whether it has a `save_state`
attribute (what `hasattr(self.obj, "save_state")` tests). -/
structure PyObj where
  truthy : Bool
  has_save_state : Bool
deriving DecidableEq

/-- The effect of `Checkpoint.__init__` (checkpoint.py lines 13-28) on the
wrapped object: when an object is passed, line 19 runs
`if self.obj and not hasattr(self.obj, "save_state")` and, when that holds,
installs the no-op default `save_state` on the object. -/
def Checkpoint.init_obj : Option PyObj → Option PyObj
  | none => none
  | some o =>
      if o.truthy && !o.has_save_state then some { o with has_save_state := true }
      else some o

/-! ## Retry-with-repair executor (claims C3, C8) -/

theorem run_with_fix_loop_fail (command_func : Nat → Bool × String)
    (hfail : ∀ n, (command_func n).1 = false) :
    ∀ rem cmd_calls fix_calls : Nat,
      CommandService.run_with_fix_loop command_func true rem cmd_calls fix_calls =
        { success := false, message := (command_func (cmd_calls + rem)).2,
          cmd_calls := cmd_calls + rem + 1, fix_calls := fix_calls + rem } := by
  intro rem
  induction rem with
  | zero =>
    intro c f
    simp [CommandService.run_with_fix_loop, hfail c]
  | succ n ih =>
    intro c f
    have h1 : c + 1 + n = c + (n + 1) := by omega
    have h2 : f + 1 + n = f + (n + 1) := by omega
    simp only [CommandService.run_with_fix_loop, hfail c, Bool.false_eq_true,
      if_false, if_true]
    rw [ih (c + 1) (f + 1), h1, h2]

/-- C3: for a command function that fails on every invocation and a repair
callback provided, `run_command_with_fix` with bound `max_retries` invokes
the command exactly `max_retries + 1` times and the repair callback exactly
`max_retries` times, then returns a failure outcome (success flag false)
without raising. -/
theorem run_command_with_fix_retry_bound (command_func : Nat → Bool × String)
    (max_retries : Nat) (hfail : ∀ n, (command_func n).1 = false) :
    CommandService.run_command_with_fix command_func true max_retries =
      { success := false, message := (command_func max_retries).2,
        cmd_calls := max_retries + 1, fix_calls := max_retries } := by
  have h := run_with_fix_loop_fail command_func hfail max_retries 0 0
  simpa [CommandService.run_command_with_fix] using h

theorem run_command_with_fix_retry_bound_witness :
    CommandService.run_command_with_fix (fun _ => (false, "err")) true 3 =
      { success := false, message := "err", cmd_calls := 4, fix_calls := 3 } :=
  run_command_with_fix_retry_bound (fun _ => (false, "err")) 3 (fun _ => rfl)

/-- C8: for a command function that fails on its first invocation and
succeeds on its second, with a repair callback provided and bound at least
2, `run_command_with_fix` returns success after exactly 2 command
invocations and exactly 1 repair invocation. -/
theorem run_command_with_fix_short_circuit (command_func : Nat → Bool × String)
    (max_retries : Nat) (h0 : (command_func 0).1 = false)
    (h1 : (command_func 1).1 = true) (hmr : 2 ≤ max_retries) :
    CommandService.run_command_with_fix command_func true max_retries =
      { success := true, message := (command_func 1).2,
        cmd_calls := 2, fix_calls := 1 } := by
  obtain ⟨m, rfl⟩ : ∃ m, max_retries = m + 2 := ⟨max_retries - 2, by omega⟩
  simp [CommandService.run_command_with_fix, CommandService.run_with_fix_loop, h0, h1]

theorem run_command_with_fix_short_circuit_witness :
    CommandService.run_command_with_fix (fun n => (n == 1, "m")) true 3 =
      { success := true, message := "m", cmd_calls := 2, fix_calls := 1 } :=
  run_command_with_fix_short_circuit (fun n => (n == 1, "m")) 3 rfl rfl (by decide)

/-! ## Interrupt handling (claim C9) -/

/-- C9: on a termination signal the installed handler emits a warning,
invokes the orchestrator's `save_state` hook — persisting the in-memory
counters under the orchestrator's dedicated tag, which is distinct from
every per-stage tag — and exits with status 1 (non-zero); the exit happens
even when `save_state` itself raises, in which case the store is left
untouched. -/
theorem handle_interrupt_flushes_and_exits (g : FrameworkGenerator) (db : DBState) :
    g.handle_interrupt db .ok = (true, g.save_state db, 1) ∧
    g.handle_interrupt db .raises = (true, db, 1) ∧
    dlookup (g.save_state db).entries
        (Checkpoint.get_checkpoint_key g.destination_folder "framework_generator") =
      some [("destination_folder", .vstr g.destination_folder),
            ("self", .vdict [("models_count", .vint g.models_count),
                             ("test_files_count", .vint g.test_files_count)])] ∧
    "framework_generator" ∉ stage_tags := by
  refine ⟨rfl, rfl, ?_, by decide⟩
  simp [FrameworkGenerator.save_state, Checkpoint.save, dlookup_dset_self]

/-! ## Default save_state installation (claim C10) -/

/-- C10 counterexample: a wrapped object that is falsy (Python
`if self.obj` fails) and lacks a `save_state` attribute does NOT get the
default `save_state` installed by `Checkpoint.__init__`, refuting the claim
for "every object wrapped by a Checkpoint instance". -/
theorem init_obj_falsy_counterexample :
    Checkpoint.init_obj (some ⟨false, false⟩) = some ⟨false, false⟩ ∧
    (⟨false, false⟩ : PyObj).has_save_state = false :=
  ⟨rfl, rfl⟩

/-- C10 amended: for every wrapped object that is truthy (or that already
defines `save_state`), a `save_state` attribute is defined after
construction — if such an object lacks the attribute, the no-op default is
installed. -/
theorem init_obj_truthy_installs (o : PyObj)
    (h : o.truthy = true ∨ o.has_save_state = true) :
    Checkpoint.init_obj (some o) = some { o with has_save_state := true } := by
  obtain ⟨t, s⟩ := o
  rcases h with h | h
  · subst h
    cases s <;> simp [Checkpoint.init_obj]
  · subst h
    cases t <;> simp [Checkpoint.init_obj]

theorem init_obj_truthy_installs_witness :
    Checkpoint.init_obj (some ⟨true, false⟩) = some ⟨true, true⟩ :=
  init_obj_truthy_installs ⟨true, false⟩ (Or.inl rfl)

/-! ## Checkpoint store round-trip and isolation (claims C4, C5) -/

/-- C4 counterexample: persisting an empty (falsy) payload stores the
caller-locals fallback (here also empty); a record then exists under the
key, yet `restore` returns the absent signal `None` because the stored
payload is falsy (`if not saved_data`).  This refutes both the exact
round-trip for falsy payloads and "None only when no record exists". -/
theorem save_restore_falsy_counterexample :
    (dlookup (Checkpoint.save emptyDB "ns" "t" (some []) []).entries
        (Checkpoint.get_checkpoint_key "ns" "t")).isSome = true ∧
    Checkpoint.restore (Checkpoint.save emptyDB "ns" "t" (some []) []) "ns" "t" = none := by
  constructor <;> rfl

/-- C4 amended: for every truthy (non-empty) mapping payload none of whose
keys is `"self"`, a save under `(namespace, tag)` followed by a restore of
the same key returns exactly the persisted payload; and when no record
exists for the key the restore returns the absent signal `None`. -/
theorem save_restore_roundtrip (db : DBState) (nspace tag : String) (p locs : PyDict)
    (hp : p ≠ []) (hself : ∀ q ∈ p, q.1 ≠ "self") :
    Checkpoint.restore (Checkpoint.save db nspace tag (some p) locs) nspace tag = some p ∧
    (dlookup db.entries (Checkpoint.get_checkpoint_key nspace tag) = none →
      Checkpoint.restore db nspace tag = none) := by
  constructor
  · have hpe : p.isEmpty = false := by
      cases p
      · exact absurd rfl hp
      · rfl
    have hfil : p.filter (fun q => q.1 != "self") = p :=
      List.filter_eq_self.mpr (fun q hq => bne_iff_ne.mpr (hself q hq))
    simp only [Checkpoint.save, hpe, Bool.false_eq_true, if_false]
    simp only [Checkpoint.restore, dlookup_dset_self, hpe, Bool.false_eq_true,
      if_false, hfil]
    rfl
  · intro h
    cases hex : db.exist
    · simp [Checkpoint.restore, hex]
    · simp [Checkpoint.restore, hex, h]

theorem save_restore_roundtrip_witness :
    Checkpoint.restore (Checkpoint.save emptyDB "ns" "t" (some [("a", .vint 1)]) [])
        "ns" "t" = some [("a", .vint 1)] ∧
    (dlookup emptyDB.entries (Checkpoint.get_checkpoint_key "ns" "t") = none →
      Checkpoint.restore emptyDB "ns" "t" = none) :=
  save_restore_roundtrip emptyDB "ns" "t" [("a", .vint 1)] [] (by decide) (by decide)

/-- C5 counterexample: the derived store key is `namespace ++ "_" ++ tag`,
so the two DISTINCT pairs `("a", "b_c")` and `("a_b", "c")` collide on the
key `"a_b_c"`: a save scoped to the second pair replaces the record of the
first, refuting key isolation as stated. -/
theorem save_key_collision_counterexample :
    (("a", "b_c") ≠ (("a_b" : String), ("c" : String))) ∧
    Checkpoint.restore (Checkpoint.save emptyDB "a" "b_c" (some [("v", .vint 1)]) [])
        "a" "b_c" = some [("v", .vint 1)] ∧
    Checkpoint.restore
        (Checkpoint.save (Checkpoint.save emptyDB "a" "b_c" (some [("v", .vint 1)]) [])
          "a_b" "c" (some [("v", .vint 2)]) []) "a" "b_c" =
      some [("v", .vint 2)] := by
  refine ⟨by decide, rfl, rfl⟩

/-- C5 amended: for any two `(namespace, tag)` pairs whose derived keys
`namespace ++ "_" ++ tag` differ, a save under the first pair leaves the
record stored under the second pair unchanged, and (when a database
already exists) a restore of the second pair returns the same payload as
before the save. -/
theorem save_frame_property (db : DBState) (ns1 t1 ns2 t2 : String)
    (state : Option PyDict) (locs : PyDict)
    (hk : Checkpoint.get_checkpoint_key ns1 t1 ≠ Checkpoint.get_checkpoint_key ns2 t2) :
    dlookup (Checkpoint.save db ns1 t1 state locs).entries
        (Checkpoint.get_checkpoint_key ns2 t2) =
      dlookup db.entries (Checkpoint.get_checkpoint_key ns2 t2) ∧
    (db.exist = true →
      Checkpoint.restore (Checkpoint.save db ns1 t1 state locs) ns2 t2 =
        Checkpoint.restore db ns2 t2) := by
  have hl : dlookup (Checkpoint.save db ns1 t1 state locs).entries
      (Checkpoint.get_checkpoint_key ns2 t2) =
      dlookup db.entries (Checkpoint.get_checkpoint_key ns2 t2) := by
    simp only [Checkpoint.save]
    exact dlookup_dset_ne _ _ _ _ (fun hc => hk hc.symm)
  refine ⟨hl, fun hex => ?_⟩
  simp only [Checkpoint.restore, hl, hex]
  rfl

theorem save_frame_property_witness :
    dlookup (Checkpoint.save ⟨true, []⟩ "a" "b" (some [("x", .vint 1)]) []).entries
        (Checkpoint.get_checkpoint_key "a" "c") =
      dlookup (⟨true, []⟩ : DBState).entries (Checkpoint.get_checkpoint_key "a" "c") ∧
    ((⟨true, []⟩ : DBState).exist = true →
      Checkpoint.restore (Checkpoint.save ⟨true, []⟩ "a" "b" (some [("x", .vint 1)]) [])
          "a" "c" =
        Checkpoint.restore (⟨true, []⟩ : DBState) "a" "c") :=
  save_frame_property ⟨true, []⟩ "a" "b" "a" "c" (some [("x", .vint 1)]) [] (by decide)

/-! ## Stage memoizer (claims C1, C6, C7) -/

theorem restore_of_no_record (db : DBState) (nspace tag : String)
    (h : dlookup db.entries (Checkpoint.get_checkpoint_key nspace tag) = none) :
    Checkpoint.restore db nspace tag = none := by
  cases hex : db.exist <;> simp [Checkpoint.restore, hex, h]

theorem checkpoint_wrapper_fresh_twice (g : FrameworkGenerator) (db0 : DBState)
    (tag : String) (v : PyVal) (func2 : Except String PyVal)
    (hfresh : dlookup db0.entries
      (Checkpoint.get_checkpoint_key g.destination_folder tag) = none) :
    (Checkpoint.checkpoint_wrapper g db0 tag (.ok v)).invoked = true ∧
    (Checkpoint.checkpoint_wrapper g db0 tag (.ok v)).outcome = .ok v ∧
    (Checkpoint.checkpoint_wrapper g (Checkpoint.checkpoint_wrapper g db0 tag (.ok v)).db
        tag func2).invoked = false ∧
    (Checkpoint.checkpoint_wrapper g (Checkpoint.checkpoint_wrapper g db0 tag (.ok v)).db
        tag func2).outcome = .ok v := by
  have hre := restore_of_no_record db0 g.destination_folder tag hfresh
  have h1 : Checkpoint.checkpoint_wrapper g db0 tag (.ok v) =
      { outcome := .ok v,
        db := Checkpoint.save db0 g.destination_folder tag (some [("result", v)]) [],
        invoked := true } := by
    simp [Checkpoint.checkpoint_wrapper, hre]
  have hfil : List.filter (fun q => q.1 != "self") [("result", v)] = [("result", v)] := rfl
  have hre2 : Checkpoint.restore
      (Checkpoint.save db0 g.destination_folder tag (some [("result", v)]) [])
      g.destination_folder tag = some [("result", v)] := by
    simp [Checkpoint.restore, Checkpoint.save, dlookup_dset_self, hfil]
  have h2 : Checkpoint.checkpoint_wrapper g
      (Checkpoint.save db0 g.destination_folder tag (some [("result", v)]) [])
      tag func2 =
      { outcome := .ok v,
        db := Checkpoint.save db0 g.destination_folder tag (some [("result", v)]) [],
        invoked := false } := by
    simp [Checkpoint.checkpoint_wrapper, hre2, dlookup]
  rw [h1]
  exact ⟨rfl, rfl, by rw [h2], by rw [h2]⟩

/-- C1: for every stage wrapped by the `Checkpoint.checkpoint` decorator and
every namespace, invoking the memoized stage twice under the same namespace
(starting from a store with no record for the stage key) executes the
underlying callable exactly once; the second invocation does not invoke the
callable — whatever that callable would do — and returns the identical
result persisted by the first invocation. -/
theorem checkpoint_memoizes (g : FrameworkGenerator) (db0 : DBState) (tag : String)
    (v : PyVal) (func2 : Except String PyVal)
    (hfresh : dlookup db0.entries
      (Checkpoint.get_checkpoint_key g.destination_folder tag) = none) :
    (Checkpoint.checkpoint_wrapper g db0 tag (.ok v)).invoked = true ∧
    (Checkpoint.checkpoint_wrapper g db0 tag (.ok v)).outcome = .ok v ∧
    (Checkpoint.checkpoint_wrapper g (Checkpoint.checkpoint_wrapper g db0 tag (.ok v)).db
        tag func2).invoked = false ∧
    (Checkpoint.checkpoint_wrapper g (Checkpoint.checkpoint_wrapper g db0 tag (.ok v)).db
        tag func2).outcome = .ok v :=
  checkpoint_wrapper_fresh_twice g db0 tag v func2 hfresh

theorem checkpoint_memoizes_witness :
    (Checkpoint.checkpoint_wrapper ⟨"dest", 0, 0⟩ emptyDB "generate"
        (.ok (.vstr "res"))).invoked = true ∧
    (Checkpoint.checkpoint_wrapper ⟨"dest", 0, 0⟩ emptyDB "generate"
        (.ok (.vstr "res"))).outcome = .ok (.vstr "res") ∧
    (Checkpoint.checkpoint_wrapper ⟨"dest", 0, 0⟩
        (Checkpoint.checkpoint_wrapper ⟨"dest", 0, 0⟩ emptyDB "generate"
          (.ok (.vstr "res"))).db "generate" (.error "boom")).invoked = false ∧
    (Checkpoint.checkpoint_wrapper ⟨"dest", 0, 0⟩
        (Checkpoint.checkpoint_wrapper ⟨"dest", 0, 0⟩ emptyDB "generate"
          (.ok (.vstr "res"))).db "generate" (.error "boom")).outcome =
      .ok (.vstr "res") :=
  checkpoint_memoizes ⟨"dest", 0, 0⟩ emptyDB "generate" (.vstr "res") (.error "boom") rfl

/-- C7: a memoized stage whose result is semantically `None` is
distinguished from "no record yet": after a first invocation whose callable
returns `None` persists its result, a second invocation under the same
namespace skips the callable and replays `None` instead of re-executing. -/
theorem checkpoint_none_result_replayed (g : FrameworkGenerator) (db0 : DBState)
    (tag : String) (func2 : Except String PyVal)
    (hfresh : dlookup db0.entries
      (Checkpoint.get_checkpoint_key g.destination_folder tag) = none) :
    (Checkpoint.checkpoint_wrapper g db0 tag (.ok .vnone)).invoked = true ∧
    (Checkpoint.checkpoint_wrapper g
        (Checkpoint.checkpoint_wrapper g db0 tag (.ok .vnone)).db
        tag func2).invoked = false ∧
    (Checkpoint.checkpoint_wrapper g
        (Checkpoint.checkpoint_wrapper g db0 tag (.ok .vnone)).db
        tag func2).outcome = .ok .vnone :=
  have h := checkpoint_wrapper_fresh_twice g db0 tag .vnone func2 hfresh
  ⟨h.1, h.2.2.1, h.2.2.2⟩

theorem checkpoint_none_result_replayed_witness :
    (Checkpoint.checkpoint_wrapper ⟨"dest", 0, 0⟩ emptyDB "create_env_file"
        (.ok .vnone)).invoked = true ∧
    (Checkpoint.checkpoint_wrapper ⟨"dest", 0, 0⟩
        (Checkpoint.checkpoint_wrapper ⟨"dest", 0, 0⟩ emptyDB "create_env_file"
          (.ok .vnone)).db "create_env_file" (.ok (.vint 7))).invoked = false ∧
    (Checkpoint.checkpoint_wrapper ⟨"dest", 0, 0⟩
        (Checkpoint.checkpoint_wrapper ⟨"dest", 0, 0⟩ emptyDB "create_env_file"
          (.ok .vnone)).db "create_env_file" (.ok (.vint 7))).outcome = .ok .vnone :=
  checkpoint_none_result_replayed ⟨"dest", 0, 0⟩ emptyDB "create_env_file"
    (.ok (.vint 7)) rfl

/-- C6: when the underlying callable of a memoized stage raises, the wrapper
invokes the orchestrator's `save_state` hook, propagates the same exception
unchanged, and writes no completion record under the stage key — a
subsequent invocation under the same namespace invokes the callable again
from scratch. -/
theorem checkpoint_exception_propagates (g : FrameworkGenerator) (db0 : DBState)
    (tag : String) (e : String) (func2 : Except String PyVal)
    (hfresh : dlookup db0.entries
      (Checkpoint.get_checkpoint_key g.destination_folder tag) = none) :
    (Checkpoint.checkpoint_wrapper g db0 tag (.error e)).outcome = .error e ∧
    (Checkpoint.checkpoint_wrapper g db0 tag (.error e)).invoked = true ∧
    (Checkpoint.checkpoint_wrapper g db0 tag (.error e)).db = g.save_state db0 ∧
    (Checkpoint.checkpoint_wrapper g
        (Checkpoint.checkpoint_wrapper g db0 tag (.error e)).db
        tag func2).invoked = true := by
  have hre := restore_of_no_record db0 g.destination_folder tag hfresh
  have h1 : Checkpoint.checkpoint_wrapper g db0 tag (.error e) =
      { outcome := .error e, db := g.save_state db0, invoked := true } := by
    simp [Checkpoint.checkpoint_wrapper, hre]
  refine ⟨by rw [h1], by rw [h1], by rw [h1], ?_⟩
  rw [h1]
  by_cases hkey : Checkpoint.get_checkpoint_key g.destination_folder tag =
      Checkpoint.get_checkpoint_key g.destination_folder "framework_generator"
  · have hre2 : Checkpoint.restore (g.save_state db0) g.destination_folder tag =
        some [("destination_folder", .vstr g.destination_folder)] := by
      simp [FrameworkGenerator.save_state, Checkpoint.save, Checkpoint.restore, hkey,
        dlookup_dset_self, List.filter]
    simp only [Checkpoint.checkpoint_wrapper, hre2, dlookup]
    cases func2 <;> simp
  · have hre2 : Checkpoint.restore (g.save_state db0) g.destination_folder tag = none := by
      apply restore_of_no_record
      show dlookup (g.save_state db0).entries
        (Checkpoint.get_checkpoint_key g.destination_folder tag) = none
      simp only [FrameworkGenerator.save_state, Checkpoint.save]
      rw [dlookup_dset_ne _ _ _ _ hkey]
      exact hfresh
    simp only [Checkpoint.checkpoint_wrapper, hre2]
    cases func2 <;> simp

theorem checkpoint_exception_propagates_witness :
    (Checkpoint.checkpoint_wrapper ⟨"dest", 0, 0⟩ emptyDB "generate"
        (.error "boom")).outcome = .error "boom" ∧
    (Checkpoint.checkpoint_wrapper ⟨"dest", 0, 0⟩ emptyDB "generate"
        (.error "boom")).invoked = true ∧
    (Checkpoint.checkpoint_wrapper ⟨"dest", 0, 0⟩ emptyDB "generate"
        (.error "boom")).db = FrameworkGenerator.save_state ⟨"dest", 0, 0⟩ emptyDB ∧
    (Checkpoint.checkpoint_wrapper ⟨"dest", 0, 0⟩
        (Checkpoint.checkpoint_wrapper ⟨"dest", 0, 0⟩ emptyDB "generate"
          (.error "boom")).db "generate" (.ok (.vint 1))).invoked = true :=
  checkpoint_exception_propagates ⟨"dest", 0, 0⟩ emptyDB "generate" "boom"
    (.ok (.vint 1)) rfl

/-! ## Item-level progress tracker (claim C2) -/

theorem pelem_iff_mem (x : PyVal) (xs : List PyVal) : pelem x xs = true ↔ x ∈ xs := by
  unfold pelem
  rw [List.any_eq_true]
  constructor
  · rintro ⟨y, hy, hbeq⟩
    rwa [← PyVal.beq_sound y x hbeq]
  · intro hx
    exact ⟨x, hx, PyVal.beq_refl x⟩

theorem pelem_eq_false_of_not_mem (x : PyVal) (xs : List PyVal) (h : x ∉ xs) :
    pelem x xs = false := by
  cases hpe : pelem x xs
  · rfl
  · exact absurd ((pelem_iff_mem x xs).mp hpe) h

theorem filter_pelem_split (t d : List PyVal) (hd : List.Disjoint t d) :
    (t ++ d).filter (fun x => !(pelem x t)) = d := by
  rw [List.filter_append]
  have h1 : t.filter (fun x => !(pelem x t)) = [] := by
    apply List.filter_eq_nil_iff.mpr
    intro a ha
    simp [(pelem_iff_mem a t).mpr ha]
  have h2 : d.filter (fun x => !(pelem x t)) = d := by
    apply List.filter_eq_self.mpr
    intro a ha
    have hat : a ∉ t := fun hmem => hd hmem ha
    simp [pelem_eq_false_of_not_mem a t hat]
  rw [h1, h2, List.nil_append]

theorem filter_not_pelem_take (l : List PyVal) (n : Nat) (h : l.Nodup) :
    l.filter (fun x => !(pelem x (l.take n))) = l.drop n := by
  have hdisj : List.Disjoint (l.take n) (l.drop n) := List.disjoint_take_drop h le_rfl
  calc l.filter (fun x => !(pelem x (l.take n)))
      = (l.take n ++ l.drop n).filter (fun x => !(pelem x (l.take n))) := by
        rw [List.take_append_drop]
    _ = l.drop n := filter_pelem_split _ _ hdisj

theorem dlookup_append_some {α : Type} (l1 l2 : List (String × α)) (k : String) (v : α)
    (h : dlookup l1 k = some v) : dlookup (l1 ++ l2) k = some v := by
  induction l1 with
  | nil => simp [dlookup] at h
  | cons p rest ih =>
    obtain ⟨a, b⟩ := p
    by_cases ha : a = k
    · simp only [dlookup, if_pos ha] at h
      simp only [List.cons_append, dlookup, if_pos ha, h]
    · simp only [dlookup, if_neg ha] at h
      simp only [List.cons_append, dlookup, if_neg ha]
      exact ih h

theorem dlookup_append_none {α : Type} (l1 l2 : List (String × α)) (k : String)
    (h : dlookup l1 k = none) : dlookup (l1 ++ l2) k = dlookup l2 k := by
  induction l1 with
  | nil => simp [dlookup]
  | cons p rest ih =>
    obtain ⟨a, b⟩ := p
    by_cases ha : a = k
    · simp only [dlookup, if_pos ha] at h
      exact Option.noConfusion h
    · simp only [dlookup, if_neg ha] at h
      simp only [List.cons_append, dlookup, if_neg ha]
      exact ih h

theorem dlookup_mapval {α β : Type} (l : List (String × α)) (f : String → α → β)
    (k : String) :
    dlookup (l.map (fun p => (p.1, f p.1 p.2))) k = (dlookup l k).map (f k) := by
  induction l with
  | nil => simp [dlookup]
  | cons p rest ih =>
    obtain ⟨a, b⟩ := p
    by_cases ha : a = k
    · subst ha
      simp [dlookup, ih]
    · simp [dlookup, ha, ih]

theorem dlookup_mem {α : Type} (l : List (String × α)) (k : String) (v : α)
    (h : dlookup l k = some v) : (k, v) ∈ l := by
  induction l with
  | nil => simp [dlookup] at h
  | cons p rest ih =>
    obtain ⟨a, b⟩ := p
    by_cases ha : a = k
    · subst ha
      have hbv : b = v := by simpa [dlookup] using h
      subst hbv
      exact List.mem_cons_self _ _
    · simp only [dlookup, if_neg ha] at h
      exact List.mem_cons_of_mem _ (ih h)

theorem dlookup_filter_pred {α : Type} (l : List (String × α)) (P : String × α → Bool)
    (k : String) (hP : ∀ v, P (k, v) = true) :
    dlookup (l.filter P) k = dlookup l k := by
  induction l with
  | nil => simp
  | cons p rest ih =>
    obtain ⟨a, b⟩ := p
    by_cases ha : a = k
    · subst ha
      rw [List.filter_cons, hP b]
      simp only [if_true, dlookup, if_pos rfl]
    · rw [List.filter_cons]
      cases hp : P (a, b)
      · simp only [Bool.false_eq_true, if_false]
        rw [ih]
        simp [dlookup, ha]
      · simp only [if_true, dlookup, if_neg ha]
        exact ih

theorem pyUpdate_nil (d : PyDict) : pyUpdate d [] = d := by
  unfold pyUpdate
  rw [List.filter_nil, List.append_nil]
  have : (fun (p : String × PyVal) => (p.1, (dlookup ([] : PyDict) p.1).getD p.2)) =
      fun p => p := by
    funext p
    exact Prod.mk.eta
  rw [this]
  simp

/-- Under the hypothesis that every key of `d1` is also a key of `d2`,
`d1.update(d2)` looks up exactly like `d2` (the in-place merge restores the
persisted mapping). -/
theorem pyUpdate_lookup (d1 d2 : PyDict) (k : String)
    (hkeys : ∀ p ∈ d1, (dlookup d2 p.1).isSome = true) :
    dlookup (pyUpdate d1 d2) k = dlookup d2 k := by
  unfold pyUpdate
  cases h1 : dlookup d1 k with
  | none =>
    rw [dlookup_append_none]
    · exact dlookup_filter_pred d2 _ k (fun v => by simp [h1])
    · rw [dlookup_mapval d1 (fun s v => (dlookup d2 s).getD v) k, h1]
      rfl
  | some v =>
    have hmem := dlookup_mem d1 k v h1
    have hsome := hkeys (k, v) hmem
    obtain ⟨w, hw⟩ := Option.isSome_iff_exists.mp hsome
    rw [dlookup_append_some _ _ k w, hw]
    rw [dlookup_mapval d1 (fun s v => (dlookup d2 s).getD v) k, h1]
    simp [hw]

/-- Boolean equality of Python mappings as values (Python `==` on dicts
ignores insertion order): the two lookups agree on every key of either
mapping, hence on all keys. -/
def optEq : Option PyVal → Option PyVal → Bool
  | none, none => true
  | some a, some b => PyVal.beq a b
  | _, _ => false

def dictEqB (d1 d2 : PyDict) : Bool :=
  (d1.map Prod.fst ++ d2.map Prod.fst).all (fun s => optEq (dlookup d1 s) (dlookup d2 s))

theorem dictEqB_of_lookup_eq (d1 d2 : PyDict)
    (h : ∀ s, dlookup d1 s = dlookup d2 s) : dictEqB d1 d2 = true := by
  apply List.all_eq_true.mpr
  intro s _
  rw [h s]
  cases dlookup d2 s with
  | none => rfl
  | some v => exact PyVal.beq_refl v

theorem checkpoint_iter_start_fresh (db : DBState) (nspace tag : String)
    (iterable : List PyVal) (extra_state : PyDict)
    (hfresh : dlookup db.entries (Checkpoint.get_checkpoint_key nspace tag) = none) :
    Checkpoint.checkpoint_iter_start db nspace tag iterable extra_state =
      { processed := [], remaining := iterable, acc := extra_state } := by
  have hre := restore_of_no_record db nspace tag hfresh
  have h1 : pyGetList Checkpoint.default_iter_state "processed" = [] := rfl
  have h2 : pyGetDict Checkpoint.default_iter_state "extra_state" = [] := rfl
  simp [Checkpoint.checkpoint_iter_start, hre, h1, h2, pyUpdate_nil, pelem]

theorem checkpoint_iter_loop_spec (nspace tag : String) (body : PyDict → PyVal → PyDict) :
    ∀ (n : Nat) (rest : List PyVal) (db : DBState) (processed : List PyVal) (acc : PyDict),
      n + 1 ≤ rest.length →
      Checkpoint.checkpoint_iter_loop nspace tag body db processed acc rest (n + 1) =
        (⟨true, dset db.entries (Checkpoint.get_checkpoint_key nspace tag)
            [("processed", .vlist (processed ++ rest.take (n + 1))),
             ("extra_state", .vdict (List.foldl body acc (rest.take (n + 1))))]⟩,
         List.foldl body acc (rest.take (n + 1)),
         processed ++ rest.take (n + 1)) := by
  intro n
  induction n with
  | zero =>
    intro rest db processed acc h
    cases rest with
    | nil => simp at h
    | cons item rest' =>
      simp [Checkpoint.checkpoint_iter_loop, Checkpoint.save]
  | succ m ih =>
    intro rest db processed acc h
    cases rest with
    | nil => simp at h
    | cons item rest' =>
      have hlen : m + 1 ≤ rest'.length := by
        simp only [List.length_cons] at h
        omega
      simp only [Checkpoint.checkpoint_iter_loop, Checkpoint.save]
      rw [ih rest' _ (processed ++ [item]) (body acc item) hlen]
      simp [dset_dset_self, List.take_succ_cons, List.append_assoc]

theorem checkpoint_iter_run_fresh (db0 : DBState) (nspace tag : String)
    (items : List PyVal) (acc0 : PyDict) (body : PyDict → PyVal → PyDict) (k : Nat)
    (hfresh : dlookup db0.entries (Checkpoint.get_checkpoint_key nspace tag) = none)
    (hk : k + 1 ≤ items.length) :
    Checkpoint.checkpoint_iter_run db0 nspace tag items acc0 body (k + 1) =
      (⟨true, dset db0.entries (Checkpoint.get_checkpoint_key nspace tag)
          [("processed", .vlist (items.take (k + 1))),
           ("extra_state", .vdict (List.foldl body acc0 (items.take (k + 1))))]⟩,
       List.foldl body acc0 (items.take (k + 1)),
       items.take (k + 1)) := by
  unfold Checkpoint.checkpoint_iter_run
  rw [checkpoint_iter_start_fresh db0 nspace tag items acc0 hfresh]
  show Checkpoint.checkpoint_iter_loop nspace tag body db0 [] acc0 items (k + 1) = _
  have hspec := checkpoint_iter_loop_spec nspace tag body k items db0 [] acc0 hk
  simpa using hspec

/-- C2 counterexample: with the DUPLICATED work-item sequence `[1, 1]`,
after the tracker processes and persists item 0 and is restarted, the
restart yields `[]` — the second occurrence of `1` is skipped because
"already processed" is decided by membership of the item VALUE in the
persisted list — whereas the claim promises exactly the items after index
0, namely `[1]`. -/
theorem checkpoint_iter_duplicates_counterexample :
    (Checkpoint.checkpoint_iter_start
        (Checkpoint.checkpoint_iter_run emptyDB "n" "t" [.vint 1, .vint 1] []
          (fun a _ => a) 1).1
        "n" "t" [.vint 1, .vint 1] []).remaining = [] ∧
    List.drop 1 [PyVal.vint 1, PyVal.vint 1] = [PyVal.vint 1] ∧
    ([] : List PyVal) ≠ [PyVal.vint 1] :=
  ⟨rfl, rfl, by decide⟩

/-- C2 amended: for every Work Item sequence whose items are pairwise
distinct, if the tracker (started on a store with no record for its key)
processed items `[0..k]` — each persisted after its loop body completed —
and is restarted under the same namespace and tag with a caller-supplied
accumulator all of whose keys occur in the persisted accumulator, then the
restarted iteration yields exactly items `[k+1..end]` in original order,
and the auxiliary state merged in place into the caller-supplied
accumulator equals (as a Python mapping) the accumulator state after
processing item `k`. -/
theorem checkpoint_iter_progress_monotonic (db0 : DBState) (nspace tag : String)
    (items : List PyVal) (acc0 acc1 : PyDict) (body : PyDict → PyVal → PyDict) (k : Nat)
    (hfresh : dlookup db0.entries (Checkpoint.get_checkpoint_key nspace tag) = none)
    (hnodup : items.Nodup) (hk : k + 1 ≤ items.length)
    (hkeys : ∀ p ∈ acc1,
      (dlookup (List.foldl body acc0 (items.take (k + 1))) p.1).isSome = true) :
    (Checkpoint.checkpoint_iter_start
        (Checkpoint.checkpoint_iter_run db0 nspace tag items acc0 body (k + 1)).1
        nspace tag items acc1).remaining = items.drop (k + 1) ∧
    dictEqB
      (Checkpoint.checkpoint_iter_start
          (Checkpoint.checkpoint_iter_run db0 nspace tag items acc0 body (k + 1)).1
          nspace tag items acc1).acc
      (List.foldl body acc0 (items.take (k + 1))) = true := by
  rw [checkpoint_iter_run_fresh db0 nspace tag items acc0 body k hfresh hk]
  dsimp only
  set accK := List.foldl body acc0 (items.take (k + 1)) with hacc
  set S : PyDict :=
    [("processed", PyVal.vlist (items.take (k + 1))),
     ("extra_state", PyVal.vdict accK)] with hS
  have hne : S.isEmpty = false := by rw [hS]; rfl
  have hfil : S.filter (fun p => p.1 != "self") = S := by rw [hS]; rfl
  have hre : Checkpoint.restore
      ⟨true, dset db0.entries (Checkpoint.get_checkpoint_key nspace tag) S⟩
      nspace tag = some S := by
    simp [Checkpoint.restore, dlookup_dset_self, hne, hfil]
  have hpl : pyGetList S "processed" = items.take (k + 1) := by rw [hS]; rfl
  have hpd : pyGetDict S "extra_state" = accK := by rw [hS]; rfl
  have hstart : Checkpoint.checkpoint_iter_start
      ⟨true, dset db0.entries (Checkpoint.get_checkpoint_key nspace tag) S⟩
      nspace tag items acc1 =
      { processed := items.take (k + 1),
        remaining := items.filter (fun x => !(pelem x (items.take (k + 1)))),
        acc := pyUpdate acc1 accK } := by
    simp [Checkpoint.checkpoint_iter_start, hre, hne, hpl, hpd]
  rw [hstart]
  constructor
  · exact filter_not_pelem_take items (k + 1) hnodup
  · exact dictEqB_of_lookup_eq _ _ (fun s => pyUpdate_lookup acc1 accK s hkeys)

theorem checkpoint_iter_progress_monotonic_witness :
    (Checkpoint.checkpoint_iter_start
        (Checkpoint.checkpoint_iter_run emptyDB "n" "t"
          [.vint 1, .vint 2, .vint 3] [("c", .vint 0)]
          (fun a x => dset a "c" x) 2).1
        "n" "t" [.vint 1, .vint 2, .vint 3] [("c", .vint 0)]).remaining =
      List.drop 2 [PyVal.vint 1, PyVal.vint 2, PyVal.vint 3] ∧
    dictEqB
      (Checkpoint.checkpoint_iter_start
          (Checkpoint.checkpoint_iter_run emptyDB "n" "t"
            [.vint 1, .vint 2, .vint 3] [("c", .vint 0)]
            (fun a x => dset a "c" x) 2).1
          "n" "t" [.vint 1, .vint 2, .vint 3] [("c", .vint 0)]).acc
      (List.foldl (fun a x => dset a "c" x) [("c", .vint 0)]
        (List.take 2 [PyVal.vint 1, PyVal.vint 2, PyVal.vint 3])) = true :=
  checkpoint_iter_progress_monotonic emptyDB "n" "t"
    [.vint 1, .vint 2, .vint 3] [("c", .vint 0)] [("c", .vint 0)]
    (fun a x => dset a "c" x) 1 rfl (by decide) (by decide) (by decide)
